import Mathlib

/-!
Shallow embedding of tinyproxy's statistics module (src/stats.c) and
verification of its specification.

The module has two public operations:
  * update_stats (src/stats.c, lines 171-199): mutates five
    unsigned long counters according to a lifecycle event kind;
  * showstats    (src/stats.c, lines 68-165): renders the counters,
    negotiating a template via an ordered (content-type, path) registry
    and an accept header, with fallback to a configured single page and
    then to a built-in minimal HTML page.

Machine integers: the five counters are C unsigned long int fields; we
model them as Nat reduced modulo 2^64 (LP64) at every mutation.
-/

/-- Modulus of the C unsigned long int counters (64-bit, LP64). -/
def ULONG_MOD : Nat := 2 ^ 64

theorem ULONG_MOD_eq : ULONG_MOD = 18446744073709551616 := by norm_num [ULONG_MOD]

/-- The counter record, struct stat_s (src/stats.c lines 38-44), field for
field in source order: num_reqs, num_badcons, num_open, num_refused,
num_denied. -/
structure stat_s where
  num_reqs : Nat
  num_badcons : Nat
  num_open : Nat
  num_refused : Nat
  num_denied : Nat
  deriving DecidableEq, Repr

/-- Modelled from the spec: the status_t enum lives in stats.h, which is not
part of the given sources; the spec lists exactly five lifecycle kinds
(BadConnection, Open, Close, Refuse, Denied), modelled as distinct codes in
declaration order, any other integer being an invalid kind. -/
def STAT_BADCONN : Nat := 0

/-- Second enum code, the Open lifecycle event. -/
def STAT_OPEN : Nat := 1

/-- Third enum code, the Close lifecycle event. -/
def STAT_CLOSE : Nat := 2

/-- Fourth enum code, the Refuse lifecycle event. -/
def STAT_REFUSE : Nat := 3

/-- Fifth enum code, the Denied lifecycle event. -/
def STAT_DENIED : Nat := 4

/-- update_stats (src/stats.c lines 171-199): switch on the update level;
each recognized kind performs its unsigned increments/decrement (modular,
width 64) and returns 0; the default branch returns -1 and touches nothing.
The pthread mutex pair around the switch is modelled separately by the
interleaving semantics further down. -/
def update_stats (update_level : Nat) (s : stat_s) : Int × stat_s :=
  if update_level = STAT_BADCONN then
    (0, { s with num_badcons := (s.num_badcons + 1) % ULONG_MOD })
  else if update_level = STAT_OPEN then
    (0, { s with num_open := (s.num_open + 1) % ULONG_MOD,
                 num_reqs := (s.num_reqs + 1) % ULONG_MOD })
  else if update_level = STAT_CLOSE then
    (0, { s with num_open := (s.num_open + (ULONG_MOD - 1)) % ULONG_MOD })
  else if update_level = STAT_REFUSE then
    (0, { s with num_refused := (s.num_refused + 1) % ULONG_MOD })
  else if update_level = STAT_DENIED then
    (0, { s with num_denied := (s.num_denied + 1) % ULONG_MOD })
  else
    (-1, s)

/-- init_stats (src/stats.c lines 54-63) zeroes the counter block (the
static stats_buf is zero-initialized and stats points at it). -/
def init_stats : stat_s := ⟨0, 0, 0, 0, 0⟩

/-- A sequence of update_stats calls applied in order, keeping only the
state (the returned codes are dropped, as callers of the counters do). -/
def applySeq (l : List Nat) (s : stat_s) : stat_s :=
  l.foldl (fun st k => (update_stats k st).2) s

theorem applySeq_nil (s : stat_s) : applySeq [] s = s := rfl

theorem applySeq_cons (k : Nat) (t : List Nat) (s : stat_s) :
    applySeq (k :: t) s = applySeq t (update_stats k s).2 := rfl

/-- Running any Open/Close sequence accumulates, modulo 2^64, one increment
of num_open and num_reqs per Open and one decrement of num_open per Close;
the other three fields are untouched. -/
theorem applySeq_open_close (l : List Nat) :
    ∀ s : stat_s, (∀ k ∈ l, k = STAT_OPEN ∨ k = STAT_CLOSE) →
      s.num_open < ULONG_MOD → s.num_reqs < ULONG_MOD →
      (applySeq l s).num_open =
        (s.num_open + l.count STAT_OPEN + (ULONG_MOD - 1) * l.count STAT_CLOSE) % ULONG_MOD ∧
      (applySeq l s).num_reqs = (s.num_reqs + l.count STAT_OPEN) % ULONG_MOD := by
  induction l with
  | nil =>
    intro s _ ho hr
    simp only [applySeq_nil, List.count_nil]
    rw [ULONG_MOD_eq] at *
    omega
  | cons k t ih =>
    intro s hl ho hr
    have hk : k = STAT_OPEN ∨ k = STAT_CLOSE := hl k (List.mem_cons_self k t)
    have hlt : ∀ k ∈ t, k = STAT_OPEN ∨ k = STAT_CLOSE :=
      fun x hx => hl x (List.mem_cons_of_mem k hx)
    rcases hk with hk | hk
    · subst hk
      rw [applySeq_cons]
      have hstep : (update_stats STAT_OPEN s).2 =
          { s with num_open := (s.num_open + 1) % ULONG_MOD,
                   num_reqs := (s.num_reqs + 1) % ULONG_MOD } := rfl
      rw [hstep]
      have h2 := ih { s with num_open := (s.num_open + 1) % ULONG_MOD,
                             num_reqs := (s.num_reqs + 1) % ULONG_MOD }
        hlt (by rw [ULONG_MOD_eq] at *; simp; omega) (by rw [ULONG_MOD_eq] at *; simp; omega)
      simp only at h2
      rw [h2.1, h2.2]
      have hco : (STAT_OPEN :: t).count STAT_OPEN = t.count STAT_OPEN + 1 :=
        List.count_cons_self STAT_OPEN t
      have hcc : (STAT_OPEN :: t).count STAT_CLOSE = t.count STAT_CLOSE := by
        rw [List.count_cons_of_ne (by decide)]
      rw [hco, hcc, ULONG_MOD_eq]
      constructor <;> omega
    · subst hk
      rw [applySeq_cons]
      have hstep : (update_stats STAT_CLOSE s).2 =
          { s with num_open := (s.num_open + (ULONG_MOD - 1)) % ULONG_MOD } := rfl
      rw [hstep]
      have h2 := ih { s with num_open := (s.num_open + (ULONG_MOD - 1)) % ULONG_MOD }
        hlt (by rw [ULONG_MOD_eq] at *; simp; omega) (by simpa using hr)
      simp only at h2
      rw [h2.1, h2.2]
      have hco : (STAT_CLOSE :: t).count STAT_OPEN = t.count STAT_OPEN := by
        rw [List.count_cons_of_ne (by decide)]
      have hcc : (STAT_CLOSE :: t).count STAT_CLOSE = t.count STAT_CLOSE + 1 :=
        List.count_cons_self STAT_CLOSE t
      rw [hco, hcc, ULONG_MOD_eq]
      constructor <;> omega

/-- Claim C1: update_stats with each of the five recognized kinds returns
the success code 0 and performs exactly the listed (64-bit modular) counter
effects: BadConnection bumps num_badcons; Open bumps num_open and num_reqs
together; Close decrements num_open; Refuse bumps num_refused; Denied bumps
num_denied; no other field changes in any case. -/
theorem claim_C1 (s : stat_s) :
    update_stats STAT_BADCONN s =
      (0, { s with num_badcons := (s.num_badcons + 1) % ULONG_MOD }) ∧
    update_stats STAT_OPEN s =
      (0, { s with num_open := (s.num_open + 1) % ULONG_MOD,
                   num_reqs := (s.num_reqs + 1) % ULONG_MOD }) ∧
    update_stats STAT_CLOSE s =
      (0, { s with num_open := (s.num_open + (ULONG_MOD - 1)) % ULONG_MOD }) ∧
    update_stats STAT_REFUSE s =
      (0, { s with num_refused := (s.num_refused + 1) % ULONG_MOD }) ∧
    update_stats STAT_DENIED s =
      (0, { s with num_denied := (s.num_denied + 1) % ULONG_MOD }) :=
  ⟨rfl, rfl, rfl, rfl, rfl⟩

/-- Claim C2, counterexample: the sequence consisting of one single Close
call refutes the unconditional claim: starting from the freshly initialized
store, the resulting num_open is 2^64 - 1 (unsigned wraparound), which is
not the claimed (#Open calls) - (#Close calls) = 0 - 1 = -1. -/
theorem claim_C2_counterexample :
    ¬ (((applySeq [STAT_CLOSE] init_stats).num_open : Int) =
        (([STAT_CLOSE].count STAT_OPEN : Int) - ([STAT_CLOSE].count STAT_CLOSE : Int))) := by
  decide

/-- Claim C2 (amended): for every finite sequence of Open/Close calls from
the freshly initialized store, PROVIDED the number of Close calls does not
exceed the number of Open calls and the number of Open calls is below 2^64,
afterwards num_open = #Open - #Close and num_reqs = #Open; Close never
affects num_reqs and Open always affects both. -/
theorem claim_C2 (l : List Nat) (hl : ∀ k ∈ l, k = STAT_OPEN ∨ k = STAT_CLOSE)
    (hle : l.count STAT_CLOSE ≤ l.count STAT_OPEN)
    (hup : l.count STAT_OPEN < ULONG_MOD) :
    (applySeq l init_stats).num_open = l.count STAT_OPEN - l.count STAT_CLOSE ∧
    (applySeq l init_stats).num_reqs = l.count STAT_OPEN := by
  have h := applySeq_open_close l init_stats hl
    (by rw [ULONG_MOD_eq]; norm_num [init_stats])
    (by rw [ULONG_MOD_eq]; norm_num [init_stats])
  simp only [init_stats] at h ⊢
  rw [ULONG_MOD_eq] at *
  omega

/-- Witness for claim C2 at the concrete sequence [Open, Open, Close]. -/
theorem claim_C2_witness :
    ((∀ k ∈ [STAT_OPEN, STAT_OPEN, STAT_CLOSE], k = STAT_OPEN ∨ k = STAT_CLOSE) ∧
      [STAT_OPEN, STAT_OPEN, STAT_CLOSE].count STAT_CLOSE ≤
        [STAT_OPEN, STAT_OPEN, STAT_CLOSE].count STAT_OPEN ∧
      [STAT_OPEN, STAT_OPEN, STAT_CLOSE].count STAT_OPEN < ULONG_MOD) ∧
    ((applySeq [STAT_OPEN, STAT_OPEN, STAT_CLOSE] init_stats).num_open =
        [STAT_OPEN, STAT_OPEN, STAT_CLOSE].count STAT_OPEN -
          [STAT_OPEN, STAT_OPEN, STAT_CLOSE].count STAT_CLOSE ∧
      (applySeq [STAT_OPEN, STAT_OPEN, STAT_CLOSE] init_stats).num_reqs =
        [STAT_OPEN, STAT_OPEN, STAT_CLOSE].count STAT_OPEN) :=
  ⟨⟨by decide, by decide, by decide⟩,
    claim_C2 [STAT_OPEN, STAT_OPEN, STAT_CLOSE] (by decide) (by decide) (by decide)⟩

/-- Claim C7: update_stats with any kind outside the five recognized codes
returns the failure code -1 and leaves the counter record exactly unchanged
(the state before equals the state after). -/
theorem claim_C7 (k : Nat) (s : stat_s)
    (h : k ≠ STAT_BADCONN ∧ k ≠ STAT_OPEN ∧ k ≠ STAT_CLOSE ∧
         k ≠ STAT_REFUSE ∧ k ≠ STAT_DENIED) :
    update_stats k s = (-1, s) := by
  obtain ⟨h0, h1, h2, h3, h4⟩ := h
  simp [update_stats, h0, h1, h2, h3, h4]

/-- Witness for claim C7 at the concrete out-of-range kind 9. -/
theorem claim_C7_witness :
    (9 ≠ STAT_BADCONN ∧ 9 ≠ STAT_OPEN ∧ 9 ≠ STAT_CLOSE ∧
      9 ≠ STAT_REFUSE ∧ 9 ≠ STAT_DENIED) ∧
    update_stats 9 init_stats = (-1, init_stats) :=
  ⟨by decide, claim_C7 9 init_stats (by decide)⟩

/-- startsWithChars needle hay: needle occurs at the very start of hay
(character-wise comparison, the inner loop of a C strstr scan). -/
def startsWithChars : List Char → List Char → Bool
  | [], _ => true
  | _ :: _, [] => false
  | c :: cs, d :: ds => c == d && startsWithChars cs ds

/-- strstrChars hay needle: C strstr(hay, needle) found a match, i.e. the
needle occurs at some position of the haystack (an empty needle always
matches, as in C). -/
def strstrChars : List Char → List Char → Bool
  | [], needle => needle.isEmpty
  | d :: rest, needle => startsWithChars needle (d :: rest) || strstrChars rest needle

/-- strstr(hay, needle) != NULL on Lean strings. -/
def strstrB (hay needle : String) : Bool :=
  strstrChars hay.data needle.data

/-- Modelled from the spec: the orderedmap container (orderedmap.c is not
among the given sources) is an insertion-ordered sequence of string pairs;
orderedmap_find returns the value stored under the key, or NULL (none) when
the key is absent. -/
def orderedmap_find (m : List (String × String)) (key : String) : Option String :=
  (m.find? (fun e => e.1 == key)).map (fun e => e.2)

/-- The stat_types registry built by init_stats (src/stats.c lines 59-62):
two entries appended in this order. -/
def init_stat_types : List (String × String) :=
  [("text/html", "data/templates/stats.html"),
   ("application/json", "data/templates/stats.json")]

/-- The registry scan of showstats (src/stats.c lines 88-95): walk the
registry in insertion order; for each entry evaluate
strstr(accept_header, stat_type). When the accept header is NULL (none) and
an entry exists, that strstr call has a NULL haystack, which is undefined
behavior in C; the embedding returns Except.error () for it. First match
breaks out with the entry's file name. -/
def scanTypes (accept_header : Option String) :
    List (String × String) → Except Unit (Option String)
  | [] => Except.ok none
  | (stat_type, type_fname) :: rest =>
    match accept_header with
    | none => Except.error ()
    | some a =>
      if strstrB a stat_type then Except.ok (some type_fname)
      else scanTypes (some a) rest

/-- Template choice of showstats (src/stats.c lines 97-106): a registry
match wins; otherwise config->statpage when configured; otherwise NULL,
which later yields the built-in minimal page. -/
def selectTemplate (accept_header : Option String)
    (stat_types : List (String × String)) (statpage : Option String) :
    Except Unit (Option String) :=
  match scanTypes accept_header stat_types with
  | Except.error e => Except.error e
  | Except.ok (some t) => Except.ok (some t)
  | Except.ok none => Except.ok statpage

/-- The environment a showstats call runs in: the request headers, the
registry, config->statpage, and the outcomes of the external collaborators
(fopen success per path, safemalloc success, send_http_message success). -/
structure RenderEnv where
  request_headers : List (String × String)
  stat_types : List (String × String)
  statpage : Option String
  fopenOk : String → Bool
  mallocOk : Bool
  sendOk : Bool

/-- The snprintf(buf, 16, "%lu", v) calls of showstats (src/stats.c lines
80-84): the decimal representation truncated to 15 characters (the 16th
byte is the terminating NUL). -/
def statVar (v : Nat) : String :=
  ⟨(Nat.repr v).data.take 15⟩

/-- What a showstats call emitted: the built-in minimal page synthesized
from a counter snapshot, an external template streamed with its
substitution variables, or nothing (allocation failure). -/
inductive RenderOutcome where
  | builtinSent (s : stat_s)
  | templateSent (path : String) (vars : List (String × String))
  | nothingSent
  deriving DecidableEq, Repr

/-- The built-in-page block of showstats (src/stats.c lines 110-152):
safemalloc failure returns -1 with nothing sent; otherwise the minimal page
is built from the counters and handed to send_http_message, whose failure
turns the return value to -1 via the err_minus_one path. -/
def showstatsBuiltin (env : RenderEnv) (stats : stat_s) : RenderOutcome × Int :=
  if env.mallocOk then
    (RenderOutcome.builtinSent stats, if env.sendOk then 0 else -1)
  else
    (RenderOutcome.nothingSent, -1)

/-- showstats (src/stats.c lines 68-165): snapshot the counters into the
five 16-byte variable buffers, look up the accept header, scan the registry
(undefined behavior when the header is NULL and the registry nonempty),
fall back to config->statpage and then to the built-in page; on the
template path the five variables are registered and the file streamed, the
send results being ignored (return 0); only the built-in block can return
-1. -/
def showstats (env : RenderEnv) (stats : stat_s) : Except Unit (RenderOutcome × Int) :=
  let opens := statVar stats.num_open
  let reqs := statVar stats.num_reqs
  let badconns := statVar stats.num_badcons
  let denied := statVar stats.num_denied
  let refused := statVar stats.num_refused
  let accept_header := orderedmap_find env.request_headers "accept"
  match selectTemplate accept_header env.stat_types env.statpage with
  | Except.error e => Except.error e
  | Except.ok none => Except.ok (showstatsBuiltin env stats)
  | Except.ok (some stats_template) =>
    if env.fopenOk stats_template then
      Except.ok (RenderOutcome.templateSent stats_template
        [("opens", opens), ("reqs", reqs), ("badconns", badconns),
         ("deniedconns", denied), ("refusedconns", refused)], 0)
    else
      Except.ok (showstatsBuiltin env stats)

/-- Whether a showstats call with this environment ends in the
built-in-page block: no template selected, or the selected one fails to
open (line 110 of src/stats.c). -/
def builtinBranch (env : RenderEnv) : Bool :=
  match selectTemplate (orderedmap_find env.request_headers "accept")
      env.stat_types env.statpage with
  | Except.ok (some t) => !(env.fopenOk t)
  | Except.ok none => true
  | Except.error _ => false

/-- The registry scan equals a first-match search over the list. -/
theorem scanTypes_eq_find (p : String) (reg : List (String × String)) :
    scanTypes (some p) reg =
      Except.ok ((reg.find? (fun e => strstrB p e.1)).map (fun e => e.2)) := by
  induction reg with
  | nil => rfl
  | cons e rest ih =>
    obtain ⟨ty, fname⟩ := e
    cases hb : strstrB p ty with
    | true => simp [scanTypes, List.find?, hb]
    | false => simp [scanTypes, List.find?, hb, ih]

/-- Claim C3: with an accept-preference string present, the registry scan
walks the entries in insertion order and selects the first whose
contentType is a substring (strstr) of the preference; in particular, for
the registry [("text/html", T1), ("application/json", T2)] and preference
"text/html,application/json;q=0.9" the selection is T1, although both
content types occur in the preference. -/
theorem claim_C3 :
    (∀ (p : String) (reg : List (String × String)),
      scanTypes (some p) reg =
        Except.ok ((reg.find? (fun e => strstrB p e.1)).map (fun e => e.2))) ∧
    scanTypes (some "text/html,application/json;q=0.9")
        [("text/html", "T1"), ("application/json", "T2")] =
      Except.ok (some "T1") ∧
    strstrB "text/html,application/json;q=0.9" "application/json" = true :=
  ⟨scanTypes_eq_find, rfl, by decide⟩

/-- Claim C4: when no registry entry's contentType is a substring of the
preference string, a configured statpage is the selected template; with no
statpage configured nothing is selected and showstats emits the built-in
minimal page. -/
theorem claim_C4 (p F : String) (reg : List (String × String))
    (env : RenderEnv) (stats : stat_s)
    (hnm : ∀ e ∈ reg, strstrB p e.1 = false)
    (hacc : orderedmap_find env.request_headers "accept" = some p)
    (hreg : env.stat_types = reg) :
    selectTemplate (some p) reg (some F) = Except.ok (some F) ∧
    selectTemplate (some p) reg none = Except.ok none ∧
    (env.statpage = none → env.mallocOk = true →
      showstats env stats =
        Except.ok (RenderOutcome.builtinSent stats,
          if env.sendOk then 0 else -1)) := by
  have hfind : reg.find? (fun e => strstrB p e.1) = none :=
    List.find?_eq_none.mpr (fun x hx => by simp [hnm x hx])
  have hscan : scanTypes (some p) reg = Except.ok none := by
    rw [scanTypes_eq_find, hfind]; rfl
  refine ⟨?_, ?_, ?_⟩
  · simp [selectTemplate, hscan]
  · simp [selectTemplate, hscan]
  · intro hsp hm
    simp only [showstats, hacc, hreg]
    have hsel : selectTemplate (some p) reg env.statpage = Except.ok none := by
      simp [selectTemplate, hscan, hsp]
    rw [hsel]
    simp [showstatsBuiltin, hm]

/-- RenderEnv of the witness for claim C4: preference text/plain, the
init_stats registry, no statpage. -/
def envC4 : RenderEnv :=
  ⟨[("accept", "text/plain")], init_stat_types, none, fun _ => false, true, true⟩

/-- Witness for claim C4 at the spec's own example: preference text/plain
matches neither registry entry; statpage F is selected when configured, and
with none configured the built-in page is emitted. -/
theorem claim_C4_witness :
    ((∀ e ∈ init_stat_types, strstrB "text/plain" e.1 = false) ∧
      orderedmap_find envC4.request_headers "accept" = some "text/plain" ∧
      envC4.stat_types = init_stat_types ∧
      envC4.statpage = none ∧ envC4.mallocOk = true) ∧
    (selectTemplate (some "text/plain") init_stat_types (some "F") =
        Except.ok (some "F") ∧
      selectTemplate (some "text/plain") init_stat_types none =
        Except.ok none ∧
      showstats envC4 init_stats =
        Except.ok (RenderOutcome.builtinSent init_stats,
          if envC4.sendOk then 0 else -1)) := by
  have h := claim_C4 "text/plain" "F" init_stat_types envC4 init_stats
    (by decide) rfl rfl
  exact ⟨⟨by decide, rfl, rfl, rfl, rfl⟩, h.1, h.2.1, h.2.2 rfl rfl⟩

/-- The request headers of the claim C8 failing input: no accept entry. -/
def headersNoAccept : List (String × String) := [("host", "example")]

/-- Claim C8 (refuted, code bug): with the accept header absent and the
registry as built by init_stats, showstats does not complete the scan and
fall through to the built-in page; orderedmap_find returns NULL and the
very first loop iteration calls strstr(NULL, "text/html"), which is
undefined behavior in C (a crash in practice) — the embedding returns the
undefined-behavior marker Except.error (). -/
theorem claim_C8 :
    orderedmap_find headersNoAccept "accept" = none ∧
    showstats ⟨headersNoAccept, init_stat_types, none, fun _ => false, true, true⟩
        init_stats = Except.error () :=
  ⟨rfl, rfl⟩

/-- Claim C5: when the selected external template fails to open, showstats
behaves exactly as if no template had been selected: it falls into the
built-in block, and when the buffer allocation and the send succeed it
emits the built-in minimal page and returns 0. -/
theorem claim_C5 (env : RenderEnv) (stats : stat_s) (t : String)
    (hsel : selectTemplate (orderedmap_find env.request_headers "accept")
        env.stat_types env.statpage = Except.ok (some t))
    (hopen : env.fopenOk t = false) :
    showstats env stats =
      showstats { env with stat_types := [], statpage := none } stats ∧
    showstats env stats = Except.ok (showstatsBuiltin env stats) ∧
    (env.mallocOk = true → env.sendOk = true →
      showstats env stats = Except.ok (RenderOutcome.builtinSent stats, 0)) := by
  have hmain : showstats env stats = Except.ok (showstatsBuiltin env stats) := by
    simp only [showstats]
    rw [hsel]
    simp [hopen]
  refine ⟨?_, hmain, ?_⟩
  · rw [hmain]; rfl
  · intro hm hsnd
    rw [hmain]
    simp [showstatsBuiltin, hm, hsnd]

/-- RenderEnv of the witness for claim C5: the accept preference matches
the registry's application/json entry, but no file can be opened. -/
def envC5 : RenderEnv :=
  ⟨[("accept", "application/json")], init_stat_types, none, fun _ => false, true, true⟩

/-- Witness for claim C5: the json template is selected, fails to open,
and showstats still emits the built-in page with return value 0. -/
theorem claim_C5_witness :
    (selectTemplate (orderedmap_find envC5.request_headers "accept")
        envC5.stat_types envC5.statpage =
      Except.ok (some "data/templates/stats.json") ∧
      envC5.fopenOk "data/templates/stats.json" = false ∧
      envC5.mallocOk = true ∧ envC5.sendOk = true) ∧
    showstats envC5 init_stats =
      Except.ok (RenderOutcome.builtinSent init_stats, 0) :=
  ⟨⟨rfl, rfl, rfl, rfl⟩,
    (claim_C5 envC5 init_stats "data/templates/stats.json" rfl rfl).2.2 rfl rfl⟩

/-- RenderEnv of the claim C6 counterexample: preference text/html matches
the first registry entry, the template opens, and the transport fails. -/
def envC6 : RenderEnv :=
  ⟨[("accept", "text/html")], init_stat_types, none, fun _ => true, true, false⟩

/-- Claim C6, counterexample: on the external-template branch showstats
ignores the transmission result; with the send failing it still returns 0,
so the claimed equivalence (negative return iff the send fails) is false at
this input. -/
theorem claim_C6_counterexample :
    ¬ (∀ r, showstats envC6 init_stats = Except.ok r →
        (r.2 < 0 ↔ envC6.sendOk = false)) := by
  intro h
  have h2 := h (RenderOutcome.templateSent "data/templates/stats.html"
      [("opens", statVar 0), ("reqs", statVar 0), ("badconns", statVar 0),
       ("deniedconns", statVar 0), ("refusedconns", statVar 0)], 0) rfl
  exact absurd (h2.mpr rfl) (by norm_num)

/-- Claim C6 (amended): showstats returns only 0 or -1, and it returns -1
exactly when the built-in-page block runs (no template selected, or the
selected one failed to open) and either the message-buffer allocation or
the send fails there; on the external-template branch transmission failures
are not detected and 0 is returned; template-open failure and a missing
preference by themselves still yield 0. -/
theorem claim_C6 (env : RenderEnv) (stats : stat_s) (r : RenderOutcome × Int)
    (h : showstats env stats = Except.ok r) :
    (r.2 = 0 ∨ r.2 = -1) ∧
    (r.2 = -1 ↔ (builtinBranch env = true ∧
      (env.mallocOk = false ∨ env.sendOk = false))) := by
  simp only [showstats] at h
  cases hsel : selectTemplate (orderedmap_find env.request_headers "accept")
      env.stat_types env.statpage with
  | error e => rw [hsel] at h; cases h
  | ok o =>
    rw [hsel] at h
    cases o with
    | none =>
      simp only [Except.ok.injEq] at h
      subst h
      simp only [builtinBranch, hsel, showstatsBuiltin]
      cases hm : env.mallocOk with
      | false => simp
      | true =>
        cases hsnd : env.sendOk with
        | false => simp
        | true => simp
    | some t =>
      cases hf : env.fopenOk t with
      | true =>
        dsimp only at h
        rw [hf] at h
        simp only [if_true, Except.ok.injEq] at h
        subst h
        simp [builtinBranch, hsel, hf]
      | false =>
        dsimp only at h
        rw [hf] at h
        simp only [Bool.false_eq_true, if_false, Except.ok.injEq] at h
        subst h
        simp only [builtinBranch, hsel, hf, showstatsBuiltin]
        cases hm : env.mallocOk with
        | false => simp
        | true =>
          cases hsnd : env.sendOk with
          | false => simp
          | true => simp

/-- RenderEnv of the witness for claim C6: nothing selected (empty
registry, no statpage), allocation succeeds, the send fails. -/
def envC6w : RenderEnv := ⟨[], [], none, fun _ => true, true, false⟩

/-- Witness for claim C6 at a built-in-branch input whose send fails:
showstats returns -1 and the characterization holds there. -/
theorem claim_C6_witness :
    showstats envC6w init_stats =
      Except.ok (RenderOutcome.builtinSent init_stats, -1) ∧
    (((RenderOutcome.builtinSent init_stats, (-1 : Int)).2 = 0 ∨
        (RenderOutcome.builtinSent init_stats, (-1 : Int)).2 = -1) ∧
      ((RenderOutcome.builtinSent init_stats, (-1 : Int)).2 = -1 ↔
        (builtinBranch envC6w = true ∧
          (envC6w.mallocOk = false ∨ envC6w.sendOk = false)))) :=
  ⟨rfl, claim_C6 envC6w init_stats (RenderOutcome.builtinSent init_stats, -1) rfl⟩

/-- A needle is found by the scan at the very start of needle ++ rest. -/
theorem startsWithChars_self_append (n rest : List Char) :
    startsWithChars n (n ++ rest) = true := by
  induction n with
  | nil => rfl
  | cons c cs ih => simp [startsWithChars, ih]

/-- strstr finds a needle sitting at the start of the haystack. -/
theorem strstrChars_self_append (n rest : List Char) :
    strstrChars (n ++ rest) n = true := by
  cases n with
  | nil =>
    cases rest with
    | nil => rfl
    | cons d ds => simp [strstrChars, startsWithChars]
  | cons c cs =>
    simp only [List.cons_append, strstrChars, Bool.or_eq_true]
    exact Or.inl (startsWithChars_self_append (c :: cs) rest)

/-- strstr still finds a needle after text is prepended to the haystack. -/
theorem strstrChars_append_left (x y n : List Char)
    (h : strstrChars y n = true) : strstrChars (x ++ y) n = true := by
  induction x with
  | nil => simpa using h
  | cons c cs ih =>
    simp only [List.cons_append, strstrChars, Bool.or_eq_true]
    exact Or.inr ih

/-- Everything of the built-in page (src/stats.c lines 118-141) before the
first counter: XML/doctype preamble, head and title and h1 lines built from
PACKAGE and VERSION, and the open-connections label. -/
def builtinPageHead (PACKAGE VERSION : String) : String :=
  "<?xml version=\"1.0\" encoding=\"UTF-8\" ?>\n" ++
  "<!DOCTYPE html PUBLIC \"-//W3C//DTD XHTML 1.1//EN\" " ++
  "\"http://www.w3.org/TR/xhtml11/DTD/xhtml11.dtd\">\n" ++
  "<html>\n<head><title>" ++ PACKAGE ++ " version " ++ VERSION ++
  " run-time statistics</title></head>\n<body>\n<h1>" ++ PACKAGE ++
  " version " ++ VERSION ++ " run-time statistics</h1>\n<p>\n" ++
  "Number of open connections: "

/-- Everything of the built-in page after the first counter: the remaining
four counters with their labels, each a literal decimal (%lu), and the
footer built from PACKAGE and VERSION. -/
def builtinPageTail (PACKAGE VERSION : String) (s : stat_s) : String :=
  "<br />\nNumber of requests: " ++ Nat.repr s.num_reqs ++
  "<br />\nNumber of bad connections: " ++ Nat.repr s.num_badcons ++
  "<br />\nNumber of denied connections: " ++ Nat.repr s.num_denied ++
  "<br />\nNumber of refused connections due to high load: " ++
  Nat.repr s.num_refused ++
  "\n</p>\n<hr />\n<p><em>Generated by " ++ PACKAGE ++ " version " ++
  VERSION ++ ".</em></p>\n</body>\n</html>\n"

/-- The message_buffer contents built by the big snprintf of showstats
(src/stats.c lines 118-141): the minimal page with the five counters as
literal decimal strings (the buffer is MAXBUFFSIZE bytes, far larger than
this page, so no truncation occurs). -/
def builtinPageBody (PACKAGE VERSION : String) (s : stat_s) : String :=
  builtinPageHead PACKAGE VERSION ++
    (Nat.repr s.num_open ++ builtinPageTail PACKAGE VERSION s)

/-- The built-in page always contains the decimal of num_open verbatim. -/
theorem builtinPage_contains_open (P V : String) (s : stat_s) :
    strstrB (builtinPageBody P V s) (Nat.repr s.num_open) = true := by
  show strstrChars
    ((builtinPageHead P V).data ++
      ((Nat.repr s.num_open).data ++ (builtinPageTail P V s).data))
    (Nat.repr s.num_open).data = true
  exact strstrChars_append_left _ _ _ (strstrChars_self_append _ _)

/-- Claim C10: the counters are fixed-width (64-bit) unsigned integers, so
update_stats STAT_CLOSE on a state whose num_open is 0 neither fails nor
clamps: it returns the success code 0 and num_open wraps to 2^64 - 1; the
built-in page of a subsequent render embeds that wrapped value as its
literal decimal string 18446744073709551615. -/
theorem claim_C10 (P V : String) (s : stat_s) (h : s.num_open = 0) :
    (update_stats STAT_CLOSE s).1 = 0 ∧
    (update_stats STAT_CLOSE s).2.num_open = ULONG_MOD - 1 ∧
    Nat.repr (ULONG_MOD - 1) = "18446744073709551615" ∧
    strstrB (builtinPageBody P V (update_stats STAT_CLOSE s).2)
      (Nat.repr (ULONG_MOD - 1)) = true := by
  have hstep : (update_stats STAT_CLOSE s).2 =
      { s with num_open := (s.num_open + (ULONG_MOD - 1)) % ULONG_MOD } := rfl
  have hopen : (update_stats STAT_CLOSE s).2.num_open = ULONG_MOD - 1 := by
    rw [hstep]
    simp only [h]
    rw [ULONG_MOD_eq]
  refine ⟨rfl, hopen, rfl, ?_⟩
  rw [← hopen]
  exact builtinPage_contains_open P V (update_stats STAT_CLOSE s).2

/-- Witness for claim C10 starting from the freshly initialized store. -/
theorem claim_C10_witness :
    init_stats.num_open = 0 ∧
    ((update_stats STAT_CLOSE init_stats).1 = 0 ∧
      (update_stats STAT_CLOSE init_stats).2.num_open = ULONG_MOD - 1 ∧
      Nat.repr (ULONG_MOD - 1) = "18446744073709551615" ∧
      strstrB (builtinPageBody "tinyproxy" "1.11.1"
          (update_stats STAT_CLOSE init_stats).2)
        (Nat.repr (ULONG_MOD - 1)) = true) :=
  ⟨rfl, claim_C10 "tinyproxy" "1.11.1" init_stats rfl⟩

/-- Atomic actions on the shared counter block and the stats_update_lock,
for interleaving update_stats STAT_OPEN with the counter snapshot of
showstats. -/
inductive CAct where
  | lock
  | unlock
  | incOpen
  | incReqs
  | readOpen
  | readReqs
  | readBad
  | readDenied
  | readRefused
  deriving DecidableEq, Repr

/-- update_stats STAT_OPEN as its atomic action sequence (src/stats.c lines
175-183 and 196): acquire stats_update_lock, increment num_open, increment
num_reqs, release. -/
def openUpdateProg : List CAct :=
  [CAct.lock, CAct.incOpen, CAct.incReqs, CAct.unlock]

/-- The counter snapshot of showstats as its atomic action sequence
(src/stats.c lines 80-84): five plain reads into the snprintf buffers.
showstats never acquires stats_update_lock; the mutex it does take,
stats_file_lock at line 108, is a different lock and is only taken after
these reads, so no lock/unlock action appears here. -/
def snapshotProg : List CAct :=
  [CAct.readOpen, CAct.readReqs, CAct.readBad, CAct.readDenied,
   CAct.readRefused]

/-- Shared state of the two-thread interleaving: the live counter block,
the holder of stats_update_lock (none = free, some tid), and the values the
reader has copied so far. -/
structure ConcState where
  st : stat_s
  owner : Option Bool
  snap : stat_s
  deriving DecidableEq, Repr

/-- One atomic step by thread tid; none when the step is blocked (lock held
by the other thread) or invalid (unlock without ownership). -/
def doAct (tid : Bool) (a : CAct) (c : ConcState) : Option ConcState :=
  match a with
  | CAct.lock =>
    match c.owner with
    | none => some { c with owner := some tid }
    | some _ => none
  | CAct.unlock =>
    if c.owner = some tid then some { c with owner := none } else none
  | CAct.incOpen =>
    some { c with st := { c.st with num_open := (c.st.num_open + 1) % ULONG_MOD } }
  | CAct.incReqs =>
    some { c with st := { c.st with num_reqs := (c.st.num_reqs + 1) % ULONG_MOD } }
  | CAct.readOpen =>
    some { c with snap := { c.snap with num_open := c.st.num_open } }
  | CAct.readReqs =>
    some { c with snap := { c.snap with num_reqs := c.st.num_reqs } }
  | CAct.readBad =>
    some { c with snap := { c.snap with num_badcons := c.st.num_badcons } }
  | CAct.readDenied =>
    some { c with snap := { c.snap with num_denied := c.st.num_denied } }
  | CAct.readRefused =>
    some { c with snap := { c.snap with num_refused := c.st.num_refused } }

/-- Run a schedule (true = writer thread in update_stats, false = reader
thread in showstats) over the two remaining action lists; none when the
schedule is infeasible or does not consume both programs. -/
def runSched : List Bool → List CAct → List CAct → ConcState → Option ConcState
  | [], [], [], c => some c
  | [], _, _, _ => none
  | true :: ts, w :: ws, rs, c =>
    (doAct true w c).bind (fun c2 => runSched ts ws rs c2)
  | true :: _, [], _, _ => none
  | false :: ts, ws, r :: rs, c =>
    (doAct false r c).bind (fun c2 => runSched ts ws rs c2)
  | false :: _, _, [], _ => none

/-- The schedule exhibiting the torn read: the reader copies num_open, the
writer's whole locked Open update runs, then the reader copies the rest. -/
def tornSched : List Bool :=
  [false, true, true, true, true, false, false, false, false]

/-- Claim C9 (refuted, code bug): the snapshot of showstats performs no
acquisition of stats_update_lock, and consequently the torn-read schedule
is feasible: interleaved with one update_stats STAT_OPEN, the reader's
snapshot shows num_open = 0 but num_reqs = 1 for that single Open event
(while the live counters end at 1 and 1) — exactly the state the claim
says can never be observed. -/
theorem claim_C9 :
    CAct.lock ∉ snapshotProg ∧
    (runSched tornSched openUpdateProg snapshotProg
        ⟨init_stats, none, init_stats⟩).map
      (fun c => (c.snap.num_open, c.snap.num_reqs, c.st.num_open, c.st.num_reqs))
      = some (0, 1, 1, 1) :=
  ⟨by decide, rfl⟩
